import Mathlib

/-!
Shallow embedding of `src/fss_update_cmk.py`, a one-shot administrative
utility that reconciles the customer-managed-key (CMK) configuration of
the file-system members of a disaster-recovery protection group.

The embedding models:
* Python `str.split(".")` (`pySplitDot`);
* the tag dictionary lookup `dict.get(key, None)` (`dictGet`);
* `get_region_dict` and `get_drpg_fss_member_details`;
* the inline per-member decision logic of the main loop (`decideUpdate`);
* the whole main sequence (`runMain`) as a trace of remote-call and log
  events paired with an optional uncaught Python error.

Remote collaborators (OCI identity, disaster-recovery and file-storage
clients) are modelled by a `World` record of response functions.  Log
messages are reproduced up to the embedded formatting of compound values
(the rendering of a Python dict or SDK response object inside a message
is elided; the fixed prefix of each message is kept verbatim).
-/

namespace FssUpdateCmk

/-- Embedding of Python `s.split(".")` at the character level: splitting on
the dot separator, keeping empty fields, `[] ↦ [""]` like Python. -/
def splitDotChars (cs : List Char) : List (List Char) :=
  cs.foldr (fun c acc =>
    if c = '.' then [] :: acc
    else match acc with
      | [] => [[c]]
      | h :: t => (c :: h) :: t) [[]]

/-- Python `drpg_ocid.split(".")` on a Lean `String`. -/
def pySplitDot (s : String) : List String :=
  (splitDotChars s.data).map (fun cs => String.mk cs)

/-- Python `str` of an optional string: `None` renders as `"None"`. -/
def pyStr : Option String → String
  | some s => s
  | none => "None"

/-- Python `d.get(k, None)` on a string-to-string dict, modelled as an
association list (first binding wins, as dict keys are unique). -/
def dictGet (d : List (String × String)) (k : String) : Option String :=
  (d.find? (fun p => p.1 == k)).map Prod.snd

/-- A protection-group member as returned by the DR control plane. -/
structure Member where
  member_id : String
  member_type : String
deriving DecidableEq, Repr

/-- The `get_dr_protection_group` response body.  The Python code guards
member access with `hasattr(drpg_response, "members")`; a response without
the attribute is modelled as `members = none`. -/
structure DrpgResponse where
  members : Option (List Member)
deriving DecidableEq, Repr

/-- An error raised by an OCI SDK call.  The Python handler reads `e.reason`;
an exception object without a `reason` attribute is modelled as
`reason = none` (reading it raises `AttributeError`). -/
structure OciError where
  reason : Option String
deriving DecidableEq, Repr

/-- The decoded `get_file_system` response (`json.loads(str(response.data))`),
restricted to the fields the script reads via `response_dict.get`. -/
structure FileSystemRecord where
  display_name : Option String
  kms_key_id : Option String
  freeform_tags : List (String × String)
deriving DecidableEq, Repr

/-- An uncaught Python error terminating the run. -/
inductive PyError where
  | indexError
  | attributeError
  | ociError (e : OciError)
deriving DecidableEq, Repr

/-- Observable steps of a run: remote calls and log/print records. -/
inductive Event where
  | remoteListRegions
  | remoteGetDrpg
  | remoteGetFileSystem (file_system_id : String)
  | remoteUpdateFileSystem (file_system_id : String) (kms_key_id : String)
  | logLine (msg : String)
deriving DecidableEq, Repr

/-- Responses of the three remote services within one run. -/
structure World where
  list_regions : List (String × String)
  get_dr_protection_group : Except OciError DrpgResponse
  get_file_system : String → Except OciError FileSystemRecord
  update_file_system : String → String → Except OciError Unit

/-- Embedding of `get_region_dict`: builds the region-name-to-key mapping
from the `list_regions` response. -/
def get_region_dict (regions : List (String × String)) : List (String × String) :=
  regions.foldl (fun region_dict r => region_dict ++ [(r.1, r.2)]) []

/-- Embedding of `get_drpg_fss_member_details`.  On a successful response it
accumulates the `member_id` of every member whose `member_type` is
`"FILE_SYSTEM"`; a response without a `members` attribute yields the empty
list.  On an SDK error it prints the error reason and returns the empty
list, but reading `e.reason` on an exception without that attribute raises
`AttributeError`, which propagates.  The result pairs the member-id list
with the printed lines. -/
def get_drpg_fss_member_details (response : Except OciError DrpgResponse) :
    Except PyError (List String × List String) :=
  match response with
  | Except.ok drpg_response =>
    match drpg_response.members with
    | some members =>
      Except.ok (members.foldl
        (fun acc member =>
          if member.member_type == "FILE_SYSTEM" then acc ++ [member.member_id]
          else acc) [], [])
    | none => Except.ok ([], [])
  | Except.error e =>
    match e.reason with
    | some r => Except.ok ([], ["Error in fetching DRPG Details: " ++ r])
    | none => Except.error PyError.attributeError

/-- The action decided for one member. -/
inductive Action where
  | APPLY
  | SKIP_ALREADY_SET
  | SKIP_NO_KEY
deriving DecidableEq, Repr

/-- The decision derived for one member: an action and, for `APPLY`, the
key identifier to write. -/
structure UpdateDecision where
  action : Action
  target_key_id : Option String
deriving DecidableEq, Repr

/-- The inline decision logic of the main loop (lines 143–170 of the
script): `current_cmk_id` is `response_dict.get("kms_key_id", None)` and
`new_cmk_id` is `freeform_tags.get(keyname, None)`.  The update branch is
taken when `current_cmk_id is None or current_cmk_id == ""` and
`new_cmk_id is not None`. -/
def decideUpdate (record : FileSystemRecord) (keyname : String) : UpdateDecision :=
  let current_cmk_id := record.kms_key_id
  let new_cmk_id := dictGet record.freeform_tags keyname
  if current_cmk_id = none ∨ current_cmk_id = some "" then
    match new_cmk_id with
    | some v => { action := Action.APPLY, target_key_id := some v }
    | none => { action := Action.SKIP_NO_KEY, target_key_id := none }
  else { action := Action.SKIP_ALREADY_SET, target_key_id := none }

/-- True exactly on update-mutation events. -/
def isUpdateEvent : Event → Bool
  | Event.remoteUpdateFileSystem _ _ => true
  | _ => false

/-- True on the per-member remote calls (file-system get or update). -/
def isMemberRemoteEvent : Event → Bool
  | Event.remoteGetFileSystem _ => true
  | Event.remoteUpdateFileSystem _ _ => true
  | _ => false

/-- One iteration of the main loop for one `file_system_id`: fetch the
record, decide, and either update, or log one of the two skip messages.
Returns the events of the iteration and an uncaught error, if any. -/
def processMember (w : World) (keyname : String) (file_system_id : String) :
    List Event × Option PyError :=
  match w.get_file_system file_system_id with
  | Except.error e => ([Event.remoteGetFileSystem file_system_id], some (PyError.ociError e))
  | Except.ok response_dict =>
    let file_system_name := response_dict.display_name
    let current_cmk_id := response_dict.kms_key_id
    let new_cmk_id := dictGet response_dict.freeform_tags keyname
    if current_cmk_id = none ∨ current_cmk_id = some "" then
      match new_cmk_id with
      | some v =>
        let evs := [Event.remoteGetFileSystem file_system_id,
          Event.logLine ("Updating the file system [" ++ pyStr file_system_name ++ "] - ["
            ++ file_system_id ++ "] with the new CMK with kmsKeyId [" ++ v ++ "]"),
          Event.remoteUpdateFileSystem file_system_id v]
        match w.update_file_system file_system_id v with
        | Except.ok _ => (evs ++ [Event.logLine "update_response"], none)
        | Except.error e => (evs, some (PyError.ociError e))
      | none =>
        ([Event.remoteGetFileSystem file_system_id,
          Event.logLine ("Skipping Update of the file system [" ++ pyStr file_system_name
            ++ "] - [" ++ file_system_id ++ "] as Key not found in Freeform Tags list")], none)
    else
      ([Event.remoteGetFileSystem file_system_id,
        Event.logLine ("Skipping Update of the file system [" ++ pyStr file_system_name
          ++ "] - [" ++ file_system_id ++ "] as CMK already exists with kmsKeyId ["
          ++ pyStr current_cmk_id ++ "]")], none)

/-- The main loop over `restored_file_systems_list`: members are processed
in order and an uncaught error stops the loop immediately. -/
def processMembers (w : World) (keyname : String) : List String → List Event × Option PyError
  | [] => ([], none)
  | file_system_id :: rest =>
    match processMember w keyname file_system_id with
    | (evs, some e) => (evs, some e)
    | (evs, none) =>
      let r := processMembers w keyname rest
      (evs ++ r.1, r.2)

/-- Derivation of the run-global tag lookup key (lines 121–123):
`keyname = "key_" + drpg_ocid.split(".")[3]`; `none` models the
`IndexError` raised when the identifier has fewer than 4 segments. -/
def lookupKeyname (drpg_ocid : String) : Option String :=
  ((pySplitDot drpg_ocid).get? 3).map (fun region_identifier => "key_" ++ region_identifier)

/-- Events emitted before the member-list fetch: the start log, the region
listing (whose result `regions_dict` is never read afterwards) and the
protection-group fetch. -/
def startEvents : List Event :=
  [Event.logLine "Execution Start Date", Event.remoteListRegions, Event.remoteGetDrpg]

/-- Log records emitted after the member-list fetch: the count/list pair
when members were found, otherwise the informational empty-state record. -/
def memberCountEvents (restored_file_systems_list : List String) : List Event :=
  if restored_file_systems_list.length > 0 then
    [Event.logLine "File Systems count in DRProtectionGroup",
     Event.logLine "List of File Systems in DRProtectionGroup"]
  else
    [Event.logLine "No File Systems found in DRProtectionGroup"]

/-- Log records emitted after the loop completes without an error. -/
def endEvents : List Event :=
  [Event.logLine "Execution End Date", Event.logLine "Total Execution Time"]

/-- The loop phase of the run: the events produced so far, then the loop
events; on normal completion the end-of-run records follow. -/
def mainLoopPhase (w : World) (keyname : String) (restored_file_systems_list : List String)
    (evPrefix : List Event) : List Event × Option PyError :=
  match processMembers w keyname restored_file_systems_list with
  | (ev3, some e) => (evPrefix ++ ev3, some e)
  | (ev3, none) => (evPrefix ++ ev3 ++ endEvents, none)

/-- The whole main sequence of the script, in source order: start log,
region listing, member fetch, derivation of `keyname` from the 4th
dot-separated segment of `drpg_ocid`, count/empty logging, then the
per-member loop.  The result is the event trace and the uncaught error
terminating the run, if any. -/
def runMain (w : World) (drpg_ocid : String) : List Event × Option PyError :=
  let _regions_dict := get_region_dict w.list_regions
  match get_drpg_fss_member_details w.get_dr_protection_group with
  | Except.error e => (startEvents, some e)
  | Except.ok (restored_file_systems_list, printed) =>
    let ev1 := startEvents ++ printed.map Event.logLine
    match lookupKeyname drpg_ocid with
    | none => (ev1, some PyError.indexError)
    | some keyname =>
      mainLoopPhase w keyname restored_file_systems_list
        (ev1 ++ memberCountEvents restored_file_systems_list)

/-- Concrete record: empty current key, tag value present but empty. -/
def recEmptyTagValue : FileSystemRecord :=
  ⟨some "fs-a", some "", [("key_iad", "")]⟩

/-- Concrete record of Scenario A: empty current key, non-empty tag value. -/
def recScenarioA : FileSystemRecord :=
  ⟨some "fs-a", some "", [("key_iad", "ocid1.key.iad.123")]⟩

/-- Concrete record: absent current key and no tags at all. -/
def recNoTag : FileSystemRecord :=
  ⟨some "fs-b", none, []⟩

/-- Concrete record: current key already set, tag value also present. -/
def recAlreadySet : FileSystemRecord :=
  ⟨some "fs-c", some "ocid1.key.iad.existing", [("key_iad", "ocid1.key.iad.123")]⟩

/-- Concrete world: one file-system member whose record has an empty-string
tag value; updates succeed. -/
def wOneFss : World :=
  ⟨[("us-ashburn-1", "IAD")], Except.ok ⟨some [⟨"fs1", "FILE_SYSTEM"⟩]⟩,
    fun _ => Except.ok recEmptyTagValue, fun _ _ => Except.ok ()⟩

/-- Concrete world: one member of a non-file-system type, so the run has
zero file-system members and never touches the file-storage service. -/
def wNoFss : World :=
  ⟨[], Except.ok ⟨some [⟨"vg1", "VOLUME_GROUP"⟩]⟩,
    fun _ => Except.error ⟨some "unreached"⟩, fun _ _ => Except.ok ()⟩

/-- Concrete world: two file-system members; every update call fails. -/
def wUpdateFails : World :=
  ⟨[], Except.ok ⟨some [⟨"fs1", "FILE_SYSTEM"⟩, ⟨"fs2", "FILE_SYSTEM"⟩]⟩,
    fun _ => Except.ok recScenarioA, fun _ _ => Except.error ⟨some "500"⟩⟩

/-- The member-id accumulation loop of `get_drpg_fss_member_details` equals
filtering for `FILE_SYSTEM` members and projecting their ids. -/
lemma foldl_fss_members (members : List Member) (acc : List String) :
    members.foldl
      (fun acc member =>
        if member.member_type == "FILE_SYSTEM" then acc ++ [member.member_id]
        else acc) acc =
    acc ++ (members.filter (fun m => m.member_type == "FILE_SYSTEM")).map Member.member_id := by
  induction members generalizing acc with
  | nil => simp
  | cons m ms ih =>
    simp only [List.foldl_cons, List.filter_cons]
    cases h : m.member_type == "FILE_SYSTEM"
    · simp only [h, Bool.false_eq_true, if_false, ih]
    · simp only [h, if_true, List.map_cons, ih]
      simp

/-- Specialisation of `foldl_fss_members` to the empty accumulator the
function starts from. -/
lemma fss_members_eq (members : List Member) :
    get_drpg_fss_member_details (Except.ok ⟨some members⟩) =
      Except.ok
        ((members.filter (fun m => m.member_type == "FILE_SYSTEM")).map Member.member_id,
          []) := by
  have h := foldl_fss_members members []
  simp only [List.nil_append] at h
  exact congrArg
    (fun l => (Except.ok (l, []) : Except PyError (List String × List String))) h

/-- Claim C6: on a successful response, `get_drpg_fss_member_details`
returns exactly the `member_id`s of the members whose `member_type` is
`FILE_SYSTEM`, in order and with nothing printed; and an SDK error whose
`reason` attribute is present is caught, its reason printed, and the empty
list returned instead of the error propagating. -/
theorem member_fetch_filters_and_swallows_reasoned_errors :
    (∀ (members : List Member),
      get_drpg_fss_member_details (Except.ok ⟨some members⟩) =
        Except.ok
          ((members.filter (fun m => m.member_type == "FILE_SYSTEM")).map Member.member_id,
            [])) ∧
    (∀ (e : OciError) (r : String), e.reason = some r →
      get_drpg_fss_member_details (Except.error e) =
        Except.ok ([], ["Error in fetching DRPG Details: " ++ r])) := by
  constructor
  · intro members
    exact fss_members_eq members
  · intro e r hr
    cases e
    simp_all [get_drpg_fss_member_details]

/-- Witness for C6: a reasoned SDK error is swallowed into an empty result
with the reason printed, and a mixed member list is filtered to its
file-system members. -/
theorem member_fetch_filters_and_swallows_reasoned_errors_witness :
    get_drpg_fss_member_details (Except.error ⟨some "404"⟩) =
      Except.ok ([], ["Error in fetching DRPG Details: " ++ "404"]) ∧
    get_drpg_fss_member_details
        (Except.ok ⟨some [⟨"fs1", "FILE_SYSTEM"⟩, ⟨"vg1", "VOLUME_GROUP"⟩]⟩) =
      Except.ok
        (([(⟨"fs1", "FILE_SYSTEM"⟩ : Member), ⟨"vg1", "VOLUME_GROUP"⟩].filter
            (fun m => m.member_type == "FILE_SYSTEM")).map Member.member_id, []) :=
  ⟨member_fetch_filters_and_swallows_reasoned_errors.2 ⟨some "404"⟩ "404" rfl,
    member_fetch_filters_and_swallows_reasoned_errors.1
      [⟨"fs1", "FILE_SYSTEM"⟩, ⟨"vg1", "VOLUME_GROUP"⟩]⟩

/-- Claim C10: an SDK error without a `reason` attribute is not swallowed:
the handler itself raises `AttributeError`, which propagates out of
`get_drpg_fss_member_details`; in particular no empty-list result is
returned. -/
theorem reasonless_error_propagates :
    ∀ (e : OciError), e.reason = none →
      get_drpg_fss_member_details (Except.error e) = Except.error PyError.attributeError ∧
      ∀ (l : List String × List String),
        get_drpg_fss_member_details (Except.error e) ≠ Except.ok l := by
  intro e he
  cases e
  simp_all [get_drpg_fss_member_details]

/-- Witness for C10: the concrete reasonless error propagates as an
`AttributeError` and is not converted to an empty result. -/
theorem reasonless_error_propagates_witness :
    get_drpg_fss_member_details (Except.error ⟨none⟩) = Except.error PyError.attributeError ∧
    get_drpg_fss_member_details (Except.error ⟨none⟩) ≠ Except.ok ([], []) :=
  ⟨(reasonless_error_propagates ⟨none⟩ rfl).1,
    (reasonless_error_propagates ⟨none⟩ rfl).2 ([], [])⟩

/-- Claim C2 (code bug): on the 3-segment identifier
`ocid1.drprotectiongroup.oc1` the run performs the region listing and the
member fetch and then dies of an uncaught `IndexError` at `parts[3]`; no
malformed-input error is reported before the remote calls. -/
theorem malformed_ocid_index_fault_after_remote_calls :
    pySplitDot "ocid1.drprotectiongroup.oc1" = ["ocid1", "drprotectiongroup", "oc1"] ∧
    runMain wOneFss "ocid1.drprotectiongroup.oc1" = (startEvents, some PyError.indexError) ∧
    Event.remoteListRegions ∈ startEvents ∧ Event.remoteGetDrpg ∈ startEvents := by
  refine ⟨by decide, rfl, by decide, by decide⟩

/-- Equation form of `decideUpdate` with the let bindings inlined. -/
lemma decideUpdate_eq (record : FileSystemRecord) (keyname : String) :
    decideUpdate record keyname =
      if record.kms_key_id = none ∨ record.kms_key_id = some "" then
        match dictGet record.freeform_tags keyname with
        | some v => { action := Action.APPLY, target_key_id := some v }
        | none => { action := Action.SKIP_NO_KEY, target_key_id := none }
      else { action := Action.SKIP_ALREADY_SET, target_key_id := none } := rfl

/-- Equation form of `processMember` when the file-system fetch succeeds. -/
lemma processMember_ok (w : World) (keyname file_system_id : String)
    (record : FileSystemRecord)
    (hw : w.get_file_system file_system_id = Except.ok record) :
    processMember w keyname file_system_id =
      if record.kms_key_id = none ∨ record.kms_key_id = some "" then
        match dictGet record.freeform_tags keyname with
        | some v =>
          let evs := [Event.remoteGetFileSystem file_system_id,
            Event.logLine ("Updating the file system [" ++ pyStr record.display_name ++ "] - ["
              ++ file_system_id ++ "] with the new CMK with kmsKeyId [" ++ v ++ "]"),
            Event.remoteUpdateFileSystem file_system_id v]
          match w.update_file_system file_system_id v with
          | Except.ok _ => (evs ++ [Event.logLine "update_response"], none)
          | Except.error e => (evs, some (PyError.ociError e))
        | none =>
          ([Event.remoteGetFileSystem file_system_id,
            Event.logLine ("Skipping Update of the file system [" ++ pyStr record.display_name
              ++ "] - [" ++ file_system_id ++ "] as Key not found in Freeform Tags list")], none)
      else
        ([Event.remoteGetFileSystem file_system_id,
          Event.logLine ("Skipping Update of the file system [" ++ pyStr record.display_name
            ++ "] - [" ++ file_system_id ++ "] as CMK already exists with kmsKeyId ["
            ++ pyStr record.kms_key_id ++ "]")], none) := by
  unfold processMember
  rw [hw]

/-- Claim C1 (amended): with empty/absent current key, an absent tag key
yields SKIP_NO_KEY and no update event; but a tag value that is present
and empty is treated as present: the decision is APPLY with the empty
string as target and an update call carrying the empty string is issued. -/
theorem skip_no_key_iff_tag_key_absent :
    ∀ (record : FileSystemRecord) (keyname : String),
      record.kms_key_id = none ∨ record.kms_key_id = some "" →
      (dictGet record.freeform_tags keyname = none →
        decideUpdate record keyname = ⟨Action.SKIP_NO_KEY, none⟩ ∧
        ∀ (w : World) (id : String), w.get_file_system id = Except.ok record →
          (processMember w keyname id).1.any isUpdateEvent = false) ∧
      (dictGet record.freeform_tags keyname = some "" →
        decideUpdate record keyname = ⟨Action.APPLY, some ""⟩ ∧
        ∀ (w : World) (id : String), w.get_file_system id = Except.ok record →
          Event.remoteUpdateFileSystem id "" ∈ (processMember w keyname id).1) := by
  intro record keyname hcur
  constructor
  · intro htag
    constructor
    · rw [decideUpdate_eq, if_pos hcur, htag]
    · intro w id hw
      rw [processMember_ok w keyname id record hw, if_pos hcur, htag]
      rfl
  · intro htag
    constructor
    · rw [decideUpdate_eq, if_pos hcur, htag]
    · intro w id hw
      rw [processMember_ok w keyname id record hw, if_pos hcur, htag]
      cases hu : w.update_file_system id "" <;> simp [hu]

/-- Counterexample to claim C1 as stated: a record with empty current key
whose tags map the lookup key to the empty string does not get
SKIP_NO_KEY; the decision is APPLY with empty target and an update call is
issued. -/
theorem empty_tag_value_not_treated_as_absent :
    dictGet recEmptyTagValue.freeform_tags "key_iad" = some "" ∧
    decideUpdate recEmptyTagValue "key_iad" ≠
      { action := Action.SKIP_NO_KEY, target_key_id := none } ∧
    decideUpdate recEmptyTagValue "key_iad" =
      { action := Action.APPLY, target_key_id := some "" } ∧
    (processMember wOneFss "key_iad" "fs1").1.any isUpdateEvent = true := by
  refine ⟨by decide, by decide, by decide, by decide⟩

/-- Witness for the amended claim C1 at concrete inputs: a record with no
tags gets SKIP_NO_KEY, and the empty-string tag value of `recEmptyTagValue`
produces an update event carrying the empty string. -/
theorem skip_no_key_iff_tag_key_absent_witness :
    decideUpdate recNoTag "key_iad" = ⟨Action.SKIP_NO_KEY, none⟩ ∧
    Event.remoteUpdateFileSystem "fs1" "" ∈ (processMember wOneFss "key_iad" "fs1").1 :=
  ⟨((skip_no_key_iff_tag_key_absent recNoTag "key_iad" (Or.inl rfl)).1 rfl).1,
    ((skip_no_key_iff_tag_key_absent recEmptyTagValue "key_iad" (Or.inr rfl)).2 rfl).2
      wOneFss "fs1" rfl⟩

/-- Claim C3: a member whose current key is set (neither absent nor empty)
is always decided SKIP_ALREADY_SET, whatever its tags, and its processing
issues no update call; moreover the APPLY decision only ever arises when
the current key is empty/absent and the lookup key has a tag value, and
then the target is exactly that tag value, so an existing key assignment
is never overwritten. -/
theorem existing_key_never_overwritten :
    ∀ (record : FileSystemRecord) (keyname : String),
      (¬(record.kms_key_id = none ∨ record.kms_key_id = some "") →
        decideUpdate record keyname = ⟨Action.SKIP_ALREADY_SET, none⟩ ∧
        ∀ (w : World) (id : String), w.get_file_system id = Except.ok record →
          (processMember w keyname id).1.any isUpdateEvent = false) ∧
      ((decideUpdate record keyname).action = Action.APPLY →
        (record.kms_key_id = none ∨ record.kms_key_id = some "") ∧
        dictGet record.freeform_tags keyname = (decideUpdate record keyname).target_key_id ∧
        (decideUpdate record keyname).target_key_id ≠ none) := by
  intro record keyname
  constructor
  · intro hcur
    constructor
    · rw [decideUpdate_eq, if_neg hcur]
    · intro w id hw
      rw [processMember_ok w keyname id record hw, if_neg hcur]
      rfl
  · intro happly
    by_cases hcur : record.kms_key_id = none ∨ record.kms_key_id = some ""
    · refine ⟨hcur, ?_⟩
      rw [decideUpdate_eq, if_pos hcur] at happly ⊢
      cases htag : dictGet record.freeform_tags keyname
      · rw [htag] at happly
        exact absurd happly (by decide)
      · exact ⟨rfl, by simp⟩
    · rw [decideUpdate_eq, if_neg hcur] at happly
      exact absurd happly (by decide)

/-- Witness for C3 at concrete inputs: the record whose key is already set
keeps SKIP_ALREADY_SET and triggers no update event, and at the APPLY
decision of Scenario A the invariant conclusions hold. -/
theorem existing_key_never_overwritten_witness :
    decideUpdate recAlreadySet "key_iad" = ⟨Action.SKIP_ALREADY_SET, none⟩ ∧
    (recScenarioA.kms_key_id = none ∨ recScenarioA.kms_key_id = some "") ∧
    dictGet recScenarioA.freeform_tags "key_iad" =
      (decideUpdate recScenarioA "key_iad").target_key_id :=
  ⟨((existing_key_never_overwritten recAlreadySet "key_iad").1 (by decide)).1,
    ((existing_key_never_overwritten recScenarioA "key_iad").2 (by decide)).1,
    ((existing_key_never_overwritten recScenarioA "key_iad").2 (by decide)).2.1⟩

/-- Claim C4: with empty/absent current key and a non-empty tag value at
the lookup key, the decision is APPLY with exactly that tag value as
target, and the member loop issues the update call carrying it. -/
theorem apply_uses_tag_value :
    ∀ (record : FileSystemRecord) (keyname v : String),
      record.kms_key_id = none ∨ record.kms_key_id = some "" →
      dictGet record.freeform_tags keyname = some v →
      v ≠ "" →
      decideUpdate record keyname = ⟨Action.APPLY, some v⟩ ∧
      ∀ (w : World) (id : String), w.get_file_system id = Except.ok record →
        Event.remoteUpdateFileSystem id v ∈ (processMember w keyname id).1 := by
  intro record keyname v hcur htag hv
  constructor
  · rw [decideUpdate_eq, if_pos hcur, htag]
  · intro w id hw
    rw [processMember_ok w keyname id record hw, if_pos hcur, htag]
    cases hu : w.update_file_system id v <;> simp [hu]

/-- Witness for C4 at Scenario A: the lookup key derived from the group
identifier resolves the tag, the decision is APPLY with the tagged key,
and the update event carries it. -/
theorem apply_uses_tag_value_witness :
    decideUpdate recScenarioA "key_iad" = ⟨Action.APPLY, some "ocid1.key.iad.123"⟩ ∧
    Event.remoteUpdateFileSystem "fs1" "ocid1.key.iad.123" ∈
      (processMember wUpdateFails "key_iad" "fs1").1 :=
  ⟨(apply_uses_tag_value recScenarioA "key_iad" "ocid1.key.iad.123"
      (Or.inr rfl) rfl (by decide)).1,
    (apply_uses_tag_value recScenarioA "key_iad" "ocid1.key.iad.123"
      (Or.inr rfl) rfl (by decide)).2 wUpdateFails "fs1" rfl⟩

/-- Claim C5: for an identifier with at least 4 dot-separated segments the
run-global lookup key is `"key_"` concatenated with the 4th segment, and
it is computed once per run: for every member list the loop phase of the
run is invoked with that single key, independently of the members. -/
theorem lookup_key_derived_once_from_fourth_segment :
    ∀ (drpg_ocid : String) (h : 3 < (pySplitDot drpg_ocid).length),
      lookupKeyname drpg_ocid = some ("key_" ++ (pySplitDot drpg_ocid).get ⟨3, h⟩) ∧
      ∀ (w : World) (lst printed : List String),
        get_drpg_fss_member_details w.get_dr_protection_group = Except.ok (lst, printed) →
        runMain w drpg_ocid =
          mainLoopPhase w ("key_" ++ (pySplitDot drpg_ocid).get ⟨3, h⟩) lst
            (startEvents ++ printed.map Event.logLine ++ memberCountEvents lst) := by
  intro drpg_ocid h
  have hk : lookupKeyname drpg_ocid = some ("key_" ++ (pySplitDot drpg_ocid).get ⟨3, h⟩) := by
    unfold lookupKeyname
    rw [List.get?_eq_get h]
    rfl
  refine ⟨hk, ?_⟩
  intro w lst printed hfetch
  unfold runMain
  rw [hfetch, hk]

/-- Witness for C5: the Scenario-A identifier yields lookup key `key_iad`
and the zero-member run reduces to the loop phase at that key. -/
theorem lookup_key_derived_once_from_fourth_segment_witness :
    lookupKeyname "ocid1.drprotectiongroup.oc1.iad.abc" =
      some ("key_" ++ (pySplitDot "ocid1.drprotectiongroup.oc1.iad.abc").get ⟨3, by decide⟩) ∧
    runMain wNoFss "ocid1.drprotectiongroup.oc1.iad.abc" =
      mainLoopPhase wNoFss
        ("key_" ++ (pySplitDot "ocid1.drprotectiongroup.oc1.iad.abc").get ⟨3, by decide⟩) []
        (startEvents ++ List.map Event.logLine [] ++ memberCountEvents []) :=
  ⟨(lookup_key_derived_once_from_fourth_segment
      "ocid1.drprotectiongroup.oc1.iad.abc" (by decide)).1,
    (lookup_key_derived_once_from_fourth_segment
      "ocid1.drprotectiongroup.oc1.iad.abc" (by decide)).2 wNoFss [] [] rfl⟩

/-- Claim C7: when the group has zero members of type FILE_SYSTEM, the
fetcher returns the empty list without error, the run logs the
informational empty-state record, completes normally, and never performs
a per-member remote call (no file-system get, no update). -/
theorem empty_member_list_completes_normally :
    ∀ (w : World) (drpg_ocid keyname : String) (members : List Member),
      lookupKeyname drpg_ocid = some keyname →
      w.get_dr_protection_group = Except.ok ⟨some members⟩ →
      members.filter (fun m => m.member_type == "FILE_SYSTEM") = [] →
      get_drpg_fss_member_details w.get_dr_protection_group = Except.ok ([], []) ∧
      runMain w drpg_ocid =
        (startEvents ++ [Event.logLine "No File Systems found in DRProtectionGroup"]
          ++ endEvents, none) ∧
      (runMain w drpg_ocid).1.any isMemberRemoteEvent = false := by
  intro w drpg_ocid keyname members hkey hdr hfilter
  have hfetch : get_drpg_fss_member_details w.get_dr_protection_group = Except.ok ([], []) := by
    rw [hdr, fss_members_eq, hfilter]
    rfl
  have hrun : runMain w drpg_ocid =
      (startEvents ++ [Event.logLine "No File Systems found in DRProtectionGroup"]
        ++ endEvents, none) := by
    unfold runMain
    rw [hfetch, hkey]
    simp [mainLoopPhase, processMembers, memberCountEvents]
  refine ⟨hfetch, hrun, ?_⟩
  rw [hrun]
  rfl

/-- Witness for C7: in the concrete world whose only member is a volume
group, the run completes normally with the informational record and no
per-member remote call. -/
theorem empty_member_list_completes_normally_witness :
    runMain wNoFss "ocid1.drprotectiongroup.oc1.iad.abc" =
      (startEvents ++ [Event.logLine "No File Systems found in DRProtectionGroup"]
        ++ endEvents, none) ∧
    (runMain wNoFss "ocid1.drprotectiongroup.oc1.iad.abc").1.any isMemberRemoteEvent = false :=
  ⟨(empty_member_list_completes_normally wNoFss "ocid1.drprotectiongroup.oc1.iad.abc"
      "key_iad" [⟨"vg1", "VOLUME_GROUP"⟩] rfl rfl rfl).2.1,
    (empty_member_list_completes_normally wNoFss "ocid1.drprotectiongroup.oc1.iad.abc"
      "key_iad" [⟨"vg1", "VOLUME_GROUP"⟩] rfl rfl rfl).2.2⟩

/-- Claim C8: the decision engine is deterministic and stateless.
Evaluating the decision twice on the same record gives the same decision;
the processing of one member depends only on the remote responses for that
member (and the run-global key); and the loop over a concatenation of two
member lists is the processing of the first followed by the processing of
the second, with no state carried across members. -/
theorem decision_engine_deterministic_stateless :
    (∀ (record : FileSystemRecord) (keyname : String),
      decideUpdate record keyname = decideUpdate record keyname) ∧
    (∀ (w₁ w₂ : World) (keyname id : String),
      w₁.get_file_system id = w₂.get_file_system id →
      (∀ v, w₁.update_file_system id v = w₂.update_file_system id v) →
      processMember w₁ keyname id = processMember w₂ keyname id) ∧
    (∀ (w : World) (keyname : String) (xs ys : List String),
      processMembers w keyname (xs ++ ys) =
        match processMembers w keyname xs with
        | (evs, some e) => (evs, some e)
        | (evs, none) =>
          (evs ++ (processMembers w keyname ys).1, (processMembers w keyname ys).2)) := by
  refine ⟨fun record keyname => rfl, ?_, ?_⟩
  · intro w₁ w₂ keyname id hget hupd
    unfold processMember
    rw [hget]
    cases h2 : w₂.get_file_system id with
    | error e => rfl
    | ok record => simp only [hupd]
  · intro w keyname xs ys
    induction xs with
    | nil => simp [processMembers]
    | cons x xs ih =>
      simp only [List.cons_append, processMembers]
      cases hx : processMember w keyname x with
      | mk evs err =>
        cases err with
        | some e => rfl
        | none =>
          cases hp : processMembers w keyname xs with
          | mk pevs perr =>
            cases perr with
            | some e => simp [ih, hp, List.append_assoc]
            | none => simp [ih, hp, List.append_assoc]

/-- Witness for C8 at concrete inputs: same-world member processing is
equal, and splitting the two-member list of `wUpdateFails` at its head
decomposes the loop. -/
theorem decision_engine_deterministic_stateless_witness :
    processMember wOneFss "key_iad" "fs1" = processMember wOneFss "key_iad" "fs1" ∧
    processMembers wUpdateFails "key_iad" (["fs1"] ++ ["fs2"]) =
      match processMembers wUpdateFails "key_iad" ["fs1"] with
      | (evs, some e) => (evs, some e)
      | (evs, none) =>
        (evs ++ (processMembers wUpdateFails "key_iad" ["fs2"]).1,
          (processMembers wUpdateFails "key_iad" ["fs2"]).2) :=
  ⟨decision_engine_deterministic_stateless.2.1 wOneFss wOneFss "key_iad" "fs1"
      rfl (fun _ => rfl),
    decision_engine_deterministic_stateless.2.2 wUpdateFails "key_iad" ["fs1"] ["fs2"]⟩

/-- Claim C9: an error raised by the remote update call propagates
uncaught: the failing member's iteration ends with that error, the
remaining members are never processed (the loop result is exactly the
failing iteration's events and error, whatever the rest of the list), and
the whole run terminates with that error. -/
theorem update_error_propagates_uncaught :
    ∀ (w : World) (keyname id : String) (record : FileSystemRecord) (v : String)
      (rest : List String) (e : OciError),
      w.get_file_system id = Except.ok record →
      (record.kms_key_id = none ∨ record.kms_key_id = some "") →
      dictGet record.freeform_tags keyname = some v →
      w.update_file_system id v = Except.error e →
      (processMember w keyname id).2 = some (PyError.ociError e) ∧
      processMembers w keyname (id :: rest) =
        ((processMember w keyname id).1, some (PyError.ociError e)) ∧
      ∀ (drpg_ocid : String) (printed : List String),
        lookupKeyname drpg_ocid = some keyname →
        get_drpg_fss_member_details w.get_dr_protection_group =
          Except.ok (id :: rest, printed) →
        (runMain w drpg_ocid).2 = some (PyError.ociError e) := by
  intro w keyname id record v rest e hget hcur htag hupd
  have hsnd : (processMember w keyname id).2 = some (PyError.ociError e) := by
    rcases hcur with h | h <;>
      simp [processMember_ok w keyname id record hget, h, htag, hupd]
  have hloop : processMembers w keyname (id :: rest) =
      ((processMember w keyname id).1, some (PyError.ociError e)) := by
    unfold processMembers
    cases hx : processMember w keyname id with
    | mk evs err =>
      have herr : err = some (PyError.ociError e) := by
        rw [← hsnd, hx]
      rw [herr]
  refine ⟨hsnd, hloop, ?_⟩
  intro drpg_ocid printed hkey hfetch
  simp only [runMain, hfetch, hkey, mainLoopPhase, hloop]

/-- Witness for C9: in the concrete world where every update fails, the
run over the two file-system members dies of the first update error. -/
theorem update_error_propagates_uncaught_witness :
    (runMain wUpdateFails "ocid1.drprotectiongroup.oc1.iad.abc").2 =
      some (PyError.ociError ⟨some "500"⟩) :=
  (update_error_propagates_uncaught wUpdateFails "key_iad" "fs1" recScenarioA
      "ocid1.key.iad.123" ["fs2"] ⟨some "500"⟩ rfl (Or.inr rfl) rfl rfl).2.2
    "ocid1.drprotectiongroup.oc1.iad.abc" [] rfl rfl

end FssUpdateCmk
